import Mathlib

/-!
Verification of the CK3 DNA duplicator core
(`src/core/dna_duplicator.py`): the gene-block locator,
the two regex rewrite passes, the top-level transform and the validator,
shallowly embedded over `List Char`.
-/

/-- Strings are modelled as lists of characters. -/
abbrev Str := List Char

/-- The opening brace character, written via its code point. -/
def lbr : Char := Char.ofNat 123

/-- The closing brace character, written via its code point. -/
def rbr : Char := Char.ofNat 125

/-- The double-quote character. -/
def dq : Char := Char.ofNat 34

/-- Whitespace as recognised by Python's `\s` and `str.strip` (ASCII range):
space, tab, newline, carriage return, vertical tab, form feed. -/
def pyIsSpace (c : Char) : Bool :=
  c = ' ' || c = '\t' || c = '\n' || c = '\r' || c = Char.ofNat 11 || c = Char.ofNat 12

/-- Decimal digits as recognised by the `\d` class on this ASCII input model. -/
def pyIsDigit (c : Char) : Bool :=
  '0' ≤ c && c ≤ '9'

/-- Matching the regex `genes\s*=\s*\x7b` at the head of a string:
the literal `genes`, optional whitespace, `=`, optional whitespace, an
opening brace.  Returns the number of characters consumed.  The greedy
`\s*` runs are deterministic here because `=` and the brace are not
whitespace. -/
def matchGenesAt (s : Str) : Option Nat :=
  if s.take 5 = "genes".data then
    match (s.drop 5).dropWhile pyIsSpace with
    | '='::r3 =>
      match r3.dropWhile pyIsSpace with
      | c::_ =>
        if c = lbr then
          some (5 + ((s.drop 5).takeWhile pyIsSpace).length + 1 +
                (r3.takeWhile pyIsSpace).length + 1)
        else none
      | [] => none
    | _ => none
  else none

/-- `re.search` for the genes pattern: the leftmost position where
`matchGenesAt` succeeds, together with the match length. -/
def searchGenes : Str → Option (Nat × Nat)
  | [] => none
  | c::rest =>
    match matchGenesAt (c::rest) with
    | some L => some (0, L)
    | none => (searchGenes rest).map (fun p => (p.1 + 1, p.2))

/-- The brace-counting loop of `_extract_genes_section`: scan the
remaining characters with `open_braces = n`, incrementing on an opening
brace and decrementing on a closing one; return the number of characters
consumed when the count reaches zero, or `none` if the input is
exhausted first. -/
def braceScan : Str → Nat → Option Nat
  | _, 0 => some 0
  | [], _+1 => none
  | c::rest, n+1 =>
    (braceScan rest (if c = lbr then n+2 else if c = rbr then n else n+1)).map (· + 1)

/-- Python `str.find` for a single character: index of its first
occurrence. -/
def pyFind (c : Char) : Str → Option Nat
  | [] => none
  | d::rest => if d = c then some 0 else (pyFind c rest).map (· + 1)

/-- Python `str.rfind` for a single character: index of its last
occurrence. -/
def pyRfind (c : Char) (s : Str) : Option Nat :=
  (pyFind c s.reverse).map (fun i => s.length - 1 - i)

/-- The locator's not-found error message. -/
def msgNotFound : Str := "Could not find \x27genes\x27 section in input".data

/-- The locator's unbalanced-brace error message. -/
def msgUnbalanced : Str := "Could not find closing brace for \x27genes\x27 section".data

/-- `_extract_genes_section`: find the first `genes\s*=\s*\x7b` match,
then scan forward counting braces (starting at depth 1) to find the
balancing close brace.  Returns the section text together with its
start offset and (exclusive) end offset, or the corresponding error
message. -/
def _extract_genes_section (input_text : Str) : Except Str (Str × Nat × Nat) :=
  match searchGenes input_text with
  | none => .error msgNotFound
  | some (startPos, matchLen) =>
    match braceScan (input_text.drop (startPos + matchLen)) 1 with
    | none => .error msgUnbalanced
    | some k =>
      .ok ((input_text.drop startPos).take (matchLen + k), startPos,
           startPos + matchLen + k)

/-- The slice `genes_section[genes_section.find(brace)+1 :
genes_section.rfind(close)]` taken by `duplicate_dna` to obtain the
content strictly between the outermost braces of the section. -/
def innerOf (sec : Str) : Str :=
  match pyFind lbr sec, pyRfind rbr sec with
  | some i, some j => (sec.take j).drop (i + 1)
  | _, _ => []

/-- Greedy `\d+`: at least one decimal digit, maximal munch. -/
def munchInt (s : Str) : Option (Str × Str) :=
  let d := s.takeWhile pyIsDigit
  if d.isEmpty then none else some (d, s.dropWhile pyIsDigit)

/-- Greedy `\s+`: at least one whitespace character, maximal munch;
returns the remainder. -/
def munchSp1 (s : Str) : Option Str :=
  if (s.takeWhile pyIsSpace).isEmpty then none else some (s.dropWhile pyIsSpace)

/-- The alternation `(hair_color|skin_color|eye_color)` at the head of
the string. -/
def matchColorKey (s : Str) : Option (Str × Str) :=
  if s.take 10 = "hair_color".data then some ("hair_color".data, s.drop 10)
  else if s.take 10 = "skin_color".data then some ("skin_color".data, s.drop 10)
  else if s.take 9 = "eye_color".data then some ("eye_color".data, s.drop 9)
  else none

/-- The replacement text produced by `_duplicate_color_genes`'s
replacer: `key={ a1 a2 a1 a2 }`. -/
def colorRepl (key a1 a2 : Str) : Str :=
  key ++ '='::lbr:: ' '::(a1 ++ ' '::(a2 ++ ' '::(a1 ++ ' '::(a2 ++ [' ', rbr]))))

/-- Matching the color-gene regex
`(hair_color|skin_color|eye_color)=\x7b\s*(\d+)\s+(\d+)\s+(\d+)\s+(\d+)\s*\x7d`
at the head of the string; on success, returns the replacement text and
the remainder.  Each greedy run is deterministic because the classes of
adjacent tokens are disjoint. -/
def mColorAt (s : Str) : Option (Str × Str) :=
  match matchColorKey s with
  | none => none
  | some (key, r1) =>
    match r1 with
    | '='::c::r2 =>
      if c = lbr then
        match munchInt (r2.dropWhile pyIsSpace) with
        | none => none
        | some (a1, r4) =>
          match munchSp1 r4 with
          | none => none
          | some r5 =>
            match munchInt r5 with
            | none => none
            | some (a2, r6) =>
              match munchSp1 r6 with
              | none => none
              | some r7 =>
                match munchInt r7 with
                | none => none
                | some (_, r8) =>
                  match munchSp1 r8 with
                  | none => none
                  | some r9 =>
                    match munchInt r9 with
                    | none => none
                    | some (_, r10) =>
                      match r10.dropWhile pyIsSpace with
                      | c2::r12 =>
                        if c2 = rbr then some (colorRepl key a1 a2, r12) else none
                      | [] => none
      else none
    | _ => none

/-- The replacement text produced by `_duplicate_regular_genes`'s
replacer: `\x7b "k" v "k" v \x7d`. -/
def regRepl (k1 v1 : Str) : Str :=
  lbr:: ' '::dq::(k1 ++ dq:: ' '::(v1 ++ ' '::dq::(k1 ++ dq:: ' '::(v1 ++ [' ', rbr]))))

/-- The part of the normal-gene regex
`(\x7b\s*")([^"]+)("\s+)(\d+)(\s+")([^"]+)("\s+)(\d+)(\s*\x7d)` after
the opening brace; on success, returns the replacement text and the
remainder. -/
def mRegAfterBrace (r1 : Str) : Option (Str × Str) :=
      match r1.dropWhile pyIsSpace with
      | c1::r3 =>
        if c1 = dq then
          let k1 := r3.takeWhile (fun c => c ≠ dq)
          if k1.isEmpty then none else
          match r3.dropWhile (fun c => c ≠ dq) with
          | c2::r4 =>
            if c2 = dq then
              match munchSp1 r4 with
              | none => none
              | some r5 =>
                match munchInt r5 with
                | none => none
                | some (v1, r6) =>
                  match munchSp1 r6 with
                  | none => none
                  | some r7 =>
                    match r7 with
                    | c3::r8 =>
                      if c3 = dq then
                        let k2 := r8.takeWhile (fun c => c ≠ dq)
                        if k2.isEmpty then none else
                        match r8.dropWhile (fun c => c ≠ dq) with
                        | c4::r9 =>
                          if c4 = dq then
                            match munchSp1 r9 with
                            | none => none
                            | some r10 =>
                              match munchInt r10 with
                              | none => none
                              | some (_, r11) =>
                                match r11.dropWhile pyIsSpace with
                                | c5::r12 =>
                                  if c5 = rbr then some (regRepl k1 v1, r12)
                                  else none
                                | [] => none
                          else none
                        | [] => none
                      else none
                    | [] => none
            else none
          | [] => none
        else none
      | [] => none

/-- Matching the normal-gene regex at the head of the string: an opening
brace followed by the rest of the pattern. -/
def mRegAt (s : Str) : Option (Str × Str) :=
  match s with
  | c0::r1 => if c0 = lbr then mRegAfterBrace r1 else none
  | [] => none

/-- The scan underlying `re.sub`: at each position try the matcher; on a
match emit the replacement and continue after the matched text, else
copy one character.  Fuelled for termination; both matchers always
consume at least one character, so fuel equal to the length is exact. -/
def subF (m : Str → Option (Str × Str)) : Nat → Str → Str
  | 0, s => s
  | _+1, [] => []
  | fuel+1, c::rest =>
    match m (c::rest) with
    | some (repl, after) => repl ++ subF m fuel after
    | none => c :: subF m fuel rest

/-- `_duplicate_regular_genes`: `re.sub` with the normal-gene pattern. -/
def _duplicate_regular_genes (genes_content : Str) : Str :=
  subF mRegAt genes_content.length genes_content

/-- `_duplicate_color_genes`: `re.sub` with the color-gene pattern. -/
def _duplicate_color_genes (genes_content : Str) : Str :=
  subF mColorAt genes_content.length genes_content

/-- The prefix of every error string returned by `duplicate_dna`. -/
def errPre : Str := "Error: ".data

/-- `duplicate_dna`: locate the genes section, rewrite its inner text
with the color pass then the normal pass, reassemble as
`genes=\x7b...\x7d` and splice it back over the located span; on a
locator failure return `Error: ` followed by the message. -/
def duplicate_dna (input_text : Str) : Str :=
  match _extract_genes_section input_text with
  | .error e => errPre ++ e
  | .ok (genes_section, start_pos, end_pos) =>
    let genes_content := innerOf genes_section
    let gc1 := _duplicate_color_genes genes_content
    let gc2 := _duplicate_regular_genes gc1
    let modified := "genes=\x7b".data ++ gc2 ++ [rbr]
    input_text.take start_pos ++ modified ++ input_text.drop end_pos

/-- Python `str.strip` with no arguments: drop whitespace from both
ends. -/
def pyStrip (s : Str) : Str :=
  ((s.dropWhile pyIsSpace).reverse.dropWhile pyIsSpace).reverse

/-- `validate_dna`: fail closed on empty or whitespace-only input,
otherwise delegate to the locator, surfacing its error message
verbatim. -/
def validate_dna (dna_text : Str) : Bool × Str :=
  if dna_text.isEmpty || (pyStrip dna_text).isEmpty then
    (false, "DNA text is empty".data)
  else
    match _extract_genes_section dna_text with
    | .ok _ => (true, [])
    | .error e => (false, e)

/-- The validator's message for empty or whitespace-only input. -/
def msgEmpty : Str := "DNA text is empty".data

/-- `l` is empty or starts with a character on which `p` is false. -/
def firstNot (p : Char → Bool) : Str → Prop
  | [] => True
  | c :: _ => p c = false

/-- The three color-gene key names. -/
def colorKeys : List Str := ["hair_color".data, "skin_color".data, "eye_color".data]

/-- The inner text ` \x7b "K" V "J" W \x7d ` of a one-entry normal-gene
document. -/
def innerDoc (K V J W : Str) : Str :=
  ' '::lbr:: ' '::dq::(K ++ (dq:: ' '::(V ++ (' '::dq::(J ++ (dq:: ' '::(W ++ [' ', rbr, ' '])))))))

/-- A document whose genes block holds one normal-gene entry:
`genes=\x7b \x7b "K" V "J" W \x7d \x7d`. -/
def docOf (K V J W : Str) : Str :=
  "genes=\x7b".data ++ (innerDoc K V J W ++ [rbr])

/- ### Helper lemmas about list scanning -/

lemma takeWhile_append_all {p : Char → Bool} {u : Str} (v : Str)
    (h : ∀ c ∈ u, p c = true) :
    (u ++ v).takeWhile p = u ++ v.takeWhile p := by
  induction u with
  | nil => simp
  | cons c u ih =>
    have hc : p c = true := h c (by simp)
    simp [List.cons_append, List.takeWhile_cons, hc, ih fun c hc => h c (by simp [hc])]

lemma dropWhile_append_all {p : Char → Bool} {u : Str} (v : Str)
    (h : ∀ c ∈ u, p c = true) :
    (u ++ v).dropWhile p = v.dropWhile p := by
  induction u with
  | nil => simp
  | cons c u ih =>
    have hc : p c = true := h c (by simp)
    simp only [List.cons_append, List.dropWhile_cons, hc, if_true,
      ih fun c hc => h c (by simp [hc])]

lemma takeWhile_eq_nil_of_firstNot {p : Char → Bool} {v : Str}
    (h : firstNot p v) : v.takeWhile p = [] := by
  cases v with
  | nil => rfl
  | cons c v => simp [List.takeWhile_cons, firstNot] at h ⊢; simp [h]

lemma dropWhile_eq_self_of_firstNot {p : Char → Bool} {v : Str}
    (h : firstNot p v) : v.dropWhile p = v := by
  cases v with
  | nil => rfl
  | cons c v => simp [List.dropWhile_cons, firstNot] at h ⊢; simp [h]

lemma takeWhile_run {p : Char → Bool} {u v : Str}
    (hu : ∀ c ∈ u, p c = true) (hv : firstNot p v) :
    (u ++ v).takeWhile p = u := by
  rw [takeWhile_append_all v hu, takeWhile_eq_nil_of_firstNot hv, List.append_nil]

lemma dropWhile_run {p : Char → Bool} {u v : Str}
    (hu : ∀ c ∈ u, p c = true) (hv : firstNot p v) :
    (u ++ v).dropWhile p = v := by
  rw [dropWhile_append_all v hu, dropWhile_eq_self_of_firstNot hv]

lemma munchInt_run {u v : Str} (hne : u ≠ [])
    (hu : ∀ c ∈ u, pyIsDigit c = true) (hv : firstNot pyIsDigit v) :
    munchInt (u ++ v) = some (u, v) := by
  unfold munchInt
  rw [takeWhile_run hu hv, dropWhile_run hu hv]
  simp [hne]

lemma munchSp1_run {u v : Str} (hne : u ≠ [])
    (hu : ∀ c ∈ u, pyIsSpace c = true) (hv : firstNot pyIsSpace v) :
    munchSp1 (u ++ v) = some v := by
  unfold munchSp1
  rw [takeWhile_run hu hv, dropWhile_run hu hv]
  simp [hne]

lemma digit_not_space {c : Char} (h : pyIsDigit c = true) : pyIsSpace c = false := by
  unfold pyIsDigit at h
  unfold pyIsSpace
  simp only [Bool.or_eq_false_iff, decide_eq_false_iff_not]
  simp only [Bool.and_eq_true, decide_eq_true_eq] at h
  refine ⟨⟨⟨⟨⟨?_, ?_⟩, ?_⟩, ?_⟩, ?_⟩, ?_⟩ <;>
    rintro rfl <;> revert h <;> decide

lemma space_not_digit {c : Char} (h : pyIsSpace c = true) : pyIsDigit c = false := by
  by_contra hd
  have hd' : pyIsDigit c = true := by
    cases hdd : pyIsDigit c with
    | false => exact absurd hdd hd
    | true => rfl
  rw [digit_not_space hd'] at h
  exact Bool.false_ne_true h

lemma firstNot_sp_of_digits {u : Str} (v : Str) (hne : u ≠ [])
    (hu : ∀ c ∈ u, pyIsDigit c = true) : firstNot pyIsSpace (u ++ v) := by
  cases u with
  | nil => exact absurd rfl hne
  | cons c u => exact digit_not_space (hu c (by simp))

lemma firstNot_digit_of_spaces {u : Str} (v : Str) (hne : u ≠ [])
    (hu : ∀ c ∈ u, pyIsSpace c = true) : firstNot pyIsDigit (u ++ v) := by
  cases u with
  | nil => exact absurd rfl hne
  | cons c u => exact space_not_digit (hu c (by simp))

lemma all_ne_dq {K : Str} (hK : dq ∉ K) :
    ∀ c ∈ K, (decide (c ≠ dq)) = true := by
  intro c hc
  simp only [decide_eq_true_eq]
  rintro rfl
  exact hK hc

lemma isEmpty_false_of_ne_nil {K : Str} (hK : K ≠ []) : K.isEmpty = false := by
  cases K with
  | nil => exact absurd rfl hK
  | cons c K => rfl

lemma subF_nil (m : Str → Option (Str × Str)) (n : Nat) : subF m n [] = [] := by
  cases n <;> rfl

lemma subF_eq_self {m : Str → Option (Str × Str)} {s : Str}
    (h : ∀ p, m (s.drop p) = none) : ∀ n, subF m n s = s := by
  induction s with
  | nil => exact fun n => subF_nil m n
  | cons c rest ih =>
    intro n
    cases n with
    | zero => rfl
    | succ n =>
      have h0 : m (c :: rest) = none := h 0
      simp only [subF, h0]
      exact congrArg (c :: ·) (ih (fun p => h (p + 1)) n)

lemma firstNot_digit_spaces_then {u v : Str}
    (hu : ∀ c ∈ u, pyIsSpace c = true) (hv : firstNot pyIsDigit v) :
    firstNot pyIsDigit (u ++ v) := by
  cases u with
  | nil => exact hv
  | cons c u => exact space_not_digit (hu c (by simp))

lemma mColorAt_run {key w1 a1 w2 a2 w3 b1 w4 b2 w5 rest : Str}
    (hkey : key ∈ colorKeys)
    (hw1 : ∀ c ∈ w1, pyIsSpace c = true)
    (ha1 : a1 ≠ []) (ha1d : ∀ c ∈ a1, pyIsDigit c = true)
    (hw2 : w2 ≠ []) (hw2s : ∀ c ∈ w2, pyIsSpace c = true)
    (ha2 : a2 ≠ []) (ha2d : ∀ c ∈ a2, pyIsDigit c = true)
    (hw3 : w3 ≠ []) (hw3s : ∀ c ∈ w3, pyIsSpace c = true)
    (hb1 : b1 ≠ []) (hb1d : ∀ c ∈ b1, pyIsDigit c = true)
    (hw4 : w4 ≠ []) (hw4s : ∀ c ∈ w4, pyIsSpace c = true)
    (hb2 : b2 ≠ []) (hb2d : ∀ c ∈ b2, pyIsDigit c = true)
    (hw5 : ∀ c ∈ w5, pyIsSpace c = true) :
    mColorAt (key ++ ('='::lbr::(w1 ++ (a1 ++ (w2 ++ (a2 ++ (w3 ++ (b1 ++
        (w4 ++ (b2 ++ (w5 ++ (rbr :: rest)))))))))))) =
      some (colorRepl key a1 a2, rest) := by
  have e1 : matchColorKey (key ++ ('='::lbr::(w1 ++ (a1 ++ (w2 ++ (a2 ++
      (w3 ++ (b1 ++ (w4 ++ (b2 ++ (w5 ++ (rbr :: rest)))))))))))) =
      some (key, '='::lbr::(w1 ++ (a1 ++ (w2 ++ (a2 ++ (w3 ++ (b1 ++
        (w4 ++ (b2 ++ (w5 ++ (rbr :: rest))))))))))) := by
    fin_cases hkey <;> rfl
  have e2 : (w1 ++ (a1 ++ (w2 ++ (a2 ++ (w3 ++ (b1 ++ (w4 ++ (b2 ++
      (w5 ++ (rbr :: rest)))))))))).dropWhile pyIsSpace =
      a1 ++ (w2 ++ (a2 ++ (w3 ++ (b1 ++ (w4 ++ (b2 ++ (w5 ++ (rbr :: rest)))))))) :=
    dropWhile_run hw1 (firstNot_sp_of_digits _ ha1 ha1d)
  have e3 : munchInt (a1 ++ (w2 ++ (a2 ++ (w3 ++ (b1 ++ (w4 ++ (b2 ++
      (w5 ++ (rbr :: rest))))))))) =
      some (a1, w2 ++ (a2 ++ (w3 ++ (b1 ++ (w4 ++ (b2 ++ (w5 ++ (rbr :: rest)))))))) :=
    munchInt_run ha1 ha1d (firstNot_digit_of_spaces _ hw2 hw2s)
  have e4 : munchSp1 (w2 ++ (a2 ++ (w3 ++ (b1 ++ (w4 ++ (b2 ++
      (w5 ++ (rbr :: rest)))))))) =
      some (a2 ++ (w3 ++ (b1 ++ (w4 ++ (b2 ++ (w5 ++ (rbr :: rest))))))) :=
    munchSp1_run hw2 hw2s (firstNot_sp_of_digits _ ha2 ha2d)
  have e5 : munchInt (a2 ++ (w3 ++ (b1 ++ (w4 ++ (b2 ++ (w5 ++ (rbr :: rest))))))) =
      some (a2, w3 ++ (b1 ++ (w4 ++ (b2 ++ (w5 ++ (rbr :: rest)))))) :=
    munchInt_run ha2 ha2d (firstNot_digit_of_spaces _ hw3 hw3s)
  have e6 : munchSp1 (w3 ++ (b1 ++ (w4 ++ (b2 ++ (w5 ++ (rbr :: rest)))))) =
      some (b1 ++ (w4 ++ (b2 ++ (w5 ++ (rbr :: rest))))) :=
    munchSp1_run hw3 hw3s (firstNot_sp_of_digits _ hb1 hb1d)
  have e7 : munchInt (b1 ++ (w4 ++ (b2 ++ (w5 ++ (rbr :: rest))))) =
      some (b1, w4 ++ (b2 ++ (w5 ++ (rbr :: rest)))) :=
    munchInt_run hb1 hb1d (firstNot_digit_of_spaces _ hw4 hw4s)
  have e8 : munchSp1 (w4 ++ (b2 ++ (w5 ++ (rbr :: rest)))) =
      some (b2 ++ (w5 ++ (rbr :: rest))) :=
    munchSp1_run hw4 hw4s (firstNot_sp_of_digits _ hb2 hb2d)
  have e9 : munchInt (b2 ++ (w5 ++ (rbr :: rest))) =
      some (b2, w5 ++ (rbr :: rest)) :=
    munchInt_run hb2 hb2d
      (firstNot_digit_spaces_then hw5 (show pyIsDigit rbr = false from by decide))
  have e10 : (w5 ++ (rbr :: rest)).dropWhile pyIsSpace = rbr :: rest :=
    dropWhile_run hw5 (show pyIsSpace rbr = false from by decide)
  simp only [mColorAt, e1, e2, e3, e4, e5, e6, e7, e8, e9, e10]
  simp

lemma mRegAt_run {K V J W rest : Str}
    (hK : K ≠ []) (hKq : dq ∉ K)
    (hV : V ≠ []) (hVd : ∀ c ∈ V, pyIsDigit c = true)
    (hJ : J ≠ []) (hJq : dq ∉ J)
    (hW : W ≠ []) (hWd : ∀ c ∈ W, pyIsDigit c = true) :
    mRegAt (lbr:: ' '::dq::(K ++ (dq:: ' '::(V ++ (' '::dq::(J ++ (dq:: ' '::
        (W ++ (' '::rbr::rest))))))))) = some (regRepl K V, rest) := by
  have f1 : List.dropWhile pyIsSpace (' '::dq::(K ++ (dq:: ' '::(V ++ (' '::dq::
      (J ++ (dq:: ' '::(W ++ (' '::rbr::rest))))))))) =
      dq::(K ++ (dq:: ' '::(V ++ (' '::dq::(J ++ (dq:: ' '::
        (W ++ (' '::rbr::rest)))))))) := rfl
  have f2 : (K ++ (dq:: ' '::(V ++ (' '::dq::(J ++ (dq:: ' '::
      (W ++ (' '::rbr::rest)))))))).takeWhile (fun c => c ≠ dq) = K :=
    takeWhile_run (all_ne_dq hKq) (by simp [firstNot])
  have f3 : (K ++ (dq:: ' '::(V ++ (' '::dq::(J ++ (dq:: ' '::
      (W ++ (' '::rbr::rest)))))))).dropWhile (fun c => c ≠ dq) =
      dq:: ' '::(V ++ (' '::dq::(J ++ (dq:: ' '::(W ++ (' '::rbr::rest)))))) :=
    dropWhile_run (all_ne_dq hKq) (by simp [firstNot])
  have f4 : munchSp1 (' '::(V ++ (' '::dq::(J ++ (dq:: ' '::
      (W ++ (' '::rbr::rest))))))) =
      some (V ++ (' '::dq::(J ++ (dq:: ' '::(W ++ (' '::rbr::rest)))))) :=
    @munchSp1_run [' '] _ (by simp) (by simp [pyIsSpace])
      (firstNot_sp_of_digits _ hV hVd)
  have f5 : munchInt (V ++ (' '::dq::(J ++ (dq:: ' '::(W ++ (' '::rbr::rest)))))) =
      some (V, ' '::dq::(J ++ (dq:: ' '::(W ++ (' '::rbr::rest))))) :=
    munchInt_run hV hVd (show pyIsDigit ' ' = false from by decide)
  have f6 : munchSp1 (' '::dq::(J ++ (dq:: ' '::(W ++ (' '::rbr::rest))))) =
      some (dq::(J ++ (dq:: ' '::(W ++ (' '::rbr::rest))))) :=
    @munchSp1_run [' '] _ (by simp) (by simp [pyIsSpace])
      (show pyIsSpace dq = false from by decide)
  have f7 : (J ++ (dq:: ' '::(W ++ (' '::rbr::rest)))).takeWhile
      (fun c => c ≠ dq) = J :=
    takeWhile_run (all_ne_dq hJq) (by simp [firstNot])
  have f8 : (J ++ (dq:: ' '::(W ++ (' '::rbr::rest)))).dropWhile
      (fun c => c ≠ dq) = dq:: ' '::(W ++ (' '::rbr::rest)) :=
    dropWhile_run (all_ne_dq hJq) (by simp [firstNot])
  have f9 : munchSp1 (' '::(W ++ (' '::rbr::rest))) =
      some (W ++ (' '::rbr::rest)) :=
    @munchSp1_run [' '] _ (by simp) (by simp [pyIsSpace])
      (firstNot_sp_of_digits _ hW hWd)
  have f10 : munchInt (W ++ (' '::rbr::rest)) = some (W, ' '::rbr::rest) :=
    munchInt_run hW hWd (show pyIsDigit ' ' = false from by decide)
  have f11 : List.dropWhile pyIsSpace (' '::rbr::rest) = rbr::rest := rfl
  simp only [mRegAt, mRegAfterBrace, f1, f2, f3, f4, f5, f6, f7, f8, f9, f10,
    f11, isEmpty_false_of_ne_nil hK, isEmpty_false_of_ne_nil hJ]
  simp

lemma matchColorKey_inv {s key r1 : Str}
    (h : matchColorKey s = some (key, r1)) :
    s = key ++ r1 ∧ key ∈ colorKeys := by
  unfold matchColorKey at h
  split at h
  · rename_i htake
    obtain ⟨hkey, hr1⟩ := Prod.mk.injEq .. ▸ Option.some.injEq .. ▸ h
    refine ⟨?_, by simp [colorKeys, ← hkey]⟩
    rw [← hkey, ← hr1, ← htake, List.take_append_drop]
  · split at h
    · rename_i htake
      obtain ⟨hkey, hr1⟩ := Prod.mk.injEq .. ▸ Option.some.injEq .. ▸ h
      refine ⟨?_, by simp [colorKeys, ← hkey]⟩
      rw [← hkey, ← hr1, ← htake, List.take_append_drop]
    · split at h
      · rename_i htake
        obtain ⟨hkey, hr1⟩ := Prod.mk.injEq .. ▸ Option.some.injEq .. ▸ h
        refine ⟨?_, by simp [colorKeys, ← hkey]⟩
        rw [← hkey, ← hr1, ← htake, List.take_append_drop]
      · exact absurd h (by simp)

lemma mColorAt_some_mem_lbr {s : Str} {x : Str × Str}
    (h : mColorAt s = some x) : lbr ∈ s := by
  unfold mColorAt at h
  split at h
  · exact absurd h (by simp)
  · rename_i key r1 hk
    split at h
    · rename_i c r2
      split at h
      · rename_i hc
        subst hc
        rcases matchColorKey_inv hk with ⟨hs, _⟩
        subst hs
        simp
      · exact absurd h (by simp)
    · exact absurd h (by simp)

lemma mRegAt_some_mem_dq {s : Str} {x : Str × Str}
    (h : mRegAt s = some x) : dq ∈ s := by
  cases s with
  | nil => exact absurd h (by simp [mRegAt])
  | cons c0 r1 =>
    by_cases hc0 : c0 = lbr
    · subst hc0
      have h' : mRegAfterBrace r1 = some x := by simpa [mRegAt] using h
      cases hdrop : r1.dropWhile pyIsSpace with
      | nil =>
        unfold mRegAfterBrace at h'
        rw [hdrop] at h'
        simp at h'
      | cons c1 r3 =>
        by_cases hc1 : c1 = dq
        · have h1 : c1 ∈ r1.dropWhile pyIsSpace := by rw [hdrop]; simp
          have h2 : c1 ∈ r1 := (List.dropWhile_suffix pyIsSpace).subset h1
          subst hc1
          simp [h2]
        · unfold mRegAfterBrace at h'
          rw [hdrop] at h'
          simp [hc1] at h'
    · exact absurd h (by simp [mRegAt, hc0])

lemma mRegAt_none_of_no_dq {s : Str} (h : dq ∉ s) : mRegAt s = none := by
  cases hm : mRegAt s with
  | none => rfl
  | some x => exact absurd (mRegAt_some_mem_dq hm) h

lemma reg_id_of_no_dq {s : Str} (h : dq ∉ s) (n : Nat) :
    subF mRegAt n s = s :=
  subF_eq_self (fun p => mRegAt_none_of_no_dq
    (fun hc => h (List.drop_subset p s hc))) n

lemma munchInt_digits {s d r : Str} (h : munchInt s = some (d, r)) :
    ∀ c ∈ d, pyIsDigit c = true := by
  have h' : (if (s.takeWhile pyIsDigit).isEmpty = true then none
      else some (s.takeWhile pyIsDigit, s.dropWhile pyIsDigit)) = some (d, r) := h
  split at h'
  · exact absurd h' (by simp)
  · obtain ⟨hd, hr⟩ := Prod.mk.injEq .. ▸ Option.some.injEq .. ▸ h'
    intro c hc
    exact List.mem_takeWhile_imp (hd ▸ hc)

lemma mColorAt_some_inv {s : Str} {r t : Str}
    (h : mColorAt s = some (r, t)) :
    ∃ key a1 a2, key ∈ colorKeys ∧ (∀ c ∈ a1, pyIsDigit c = true) ∧
      (∀ c ∈ a2, pyIsDigit c = true) ∧ r = colorRepl key a1 a2 := by
  unfold mColorAt at h
  split at h
  · exact absurd h (by simp)
  · rename_i key r1 hk
    split at h
    · rename_i c r2
      split at h
      · split at h
        · exact absurd h (by simp)
        · rename_i a1 r4 hm1
          split at h
          · exact absurd h (by simp)
          · rename_i r5 hm2
            split at h
            · exact absurd h (by simp)
            · rename_i a2 r6 hm3
              split at h
              · exact absurd h (by simp)
              · rename_i r7 hm4
                split at h
                · exact absurd h (by simp)
                · rename_i b1 r8 hm5
                  split at h
                  · exact absurd h (by simp)
                  · rename_i r9 hm6
                    split at h
                    · exact absurd h (by simp)
                    · rename_i b2 r10 hm7
                      split at h
                      · rename_i c2 r12 hm8
                        split at h
                        · obtain ⟨hr, ht⟩ :=
                            Prod.mk.injEq .. ▸ Option.some.injEq .. ▸ h
                          exact ⟨key, a1, a2, (matchColorKey_inv hk).2,
                            munchInt_digits hm1, munchInt_digits hm3, hr.symm⟩
                        · exact absurd h (by simp)
                      · exact absurd h (by simp)
      · exact absurd h (by simp)
    · exact absurd h (by simp)

lemma colorRepl_no_dq {key a1 a2 : Str} (hkey : key ∈ colorKeys)
    (ha1 : ∀ c ∈ a1, pyIsDigit c = true) (ha2 : ∀ c ∈ a2, pyIsDigit c = true) :
    dq ∉ colorRepl key a1 a2 := by
  intro hdq
  simp only [colorRepl, List.mem_append, List.mem_cons, List.mem_singleton] at hdq
  rcases hdq with h | h | h | h | h | h | h | h | h | h | h
  · fin_cases hkey <;> exact absurd h (by decide)
  · exact absurd h (by decide)
  · exact absurd h (by decide)
  · exact absurd h (by decide)
  · exact absurd (ha1 dq h) (by decide)
  · exact absurd h (by decide)
  · exact absurd (ha2 dq h) (by decide)
  · exact absurd h (by decide)
  · exact absurd (ha1 dq h) (by decide)
  · exact absurd h (by decide)
  · rcases h with h | h | h
    · exact absurd (ha2 dq h) (by decide)
    · exact absurd h (by decide)
    · exact absurd h (by decide)

lemma searchGenes_some_spec {s : Str} {st L : Nat}
    (h : searchGenes s = some (st, L)) :
    matchGenesAt (s.drop st) = some L ∧
      ∀ p < st, matchGenesAt (s.drop p) = none := by
  induction s generalizing st L with
  | nil => exact absurd h (by simp [searchGenes])
  | cons c rest ih =>
    rw [searchGenes] at h
    cases hm : matchGenesAt (c::rest) with
    | some L0 =>
      rw [hm] at h
      obtain ⟨h1, h2⟩ := Prod.mk.injEq .. ▸ Option.some.injEq .. ▸ h
      subst h1
      subst h2
      exact ⟨hm, fun p hp => absurd hp (Nat.not_lt_zero p)⟩
    | none =>
      rw [hm] at h
      cases hs : searchGenes rest with
      | none => rw [hs] at h; exact absurd h (by simp)
      | some q =>
        obtain ⟨a, b⟩ := q
        rw [hs] at h
        simp only [Option.map, Option.some.injEq, Option.bind] at h
        obtain ⟨h1, h2⟩ := Prod.mk.injEq .. ▸ h
        subst h1
        subst h2
        obtain ⟨ihm, ihn⟩ := @ih a b hs
        constructor
        · simpa using ihm
        · intro p hp
          cases p with
          | zero => exact hm
          | succ p =>
            have hp' : p < a := by omega
            simpa using ihn p hp'

lemma searchGenes_none_spec {s : Str} (h : searchGenes s = none) :
    ∀ p, matchGenesAt (s.drop p) = none := by
  induction s with
  | nil => intro p; rw [List.drop_nil]; rfl
  | cons c rest ih =>
    rw [searchGenes] at h
    cases hm : matchGenesAt (c::rest) with
    | some L0 => rw [hm] at h; exact absurd h (by simp)
    | none =>
      rw [hm] at h
      cases hs : searchGenes rest with
      | some q => rw [hs] at h; exact absurd h (by simp)
      | none =>
        intro p
        cases p with
        | zero => exact hm
        | succ p => simpa using ih hs p

lemma searchGenes_none_of_no_match {s : Str}
    (h : ∀ p < s.length, matchGenesAt (s.drop p) = none) :
    searchGenes s = none := by
  induction s with
  | nil => rfl
  | cons c rest ih =>
    rw [searchGenes]
    have h0 : matchGenesAt (c :: rest) = none := by simpa using h 0 (by simp)
    rw [h0]
    rw [ih fun p hp => by simpa using h (p + 1) (by simpa using hp)]
    rfl

lemma searchGenes_lt_length {s : Str} {st L : Nat}
    (h : searchGenes s = some (st, L)) : st < s.length := by
  obtain ⟨hm, _⟩ := searchGenes_some_spec h
  by_contra hle
  rw [List.drop_eq_nil_of_le (by omega)] at hm
  exact absurd hm (by rw [show matchGenesAt [] = none from rfl]; simp)

lemma matchGenesAt_some_mem_g {s : Str} {L : Nat}
    (h : matchGenesAt s = some L) : 'g' ∈ s := by
  unfold matchGenesAt at h
  split at h
  · rename_i htake
    have hg : 'g' ∈ s.take 5 := by rw [htake]; decide
    exact List.take_subset 5 s hg
  · exact absurd h (by simp)

lemma searchGenes_not_all_space {s : Str} {st L : Nat}
    (h : searchGenes s = some (st, L)) :
    ¬ ∀ c ∈ s, pyIsSpace c = true := by
  obtain ⟨hm, _⟩ := searchGenes_some_spec h
  intro hall
  have hg : 'g' ∈ s.drop st := matchGenesAt_some_mem_g hm
  have := hall 'g' (List.drop_subset st s hg)
  exact absurd this (by decide)

lemma braceScan_spec : ∀ (t : Str) (n k : Nat), braceScan t n = some k →
    k ≤ t.length ∧
    (∀ j < k, (t.take j).count rbr < n + (t.take j).count lbr) ∧
    (t.take k).count rbr = n + (t.take k).count lbr := by
  intro t
  induction t with
  | nil =>
    intro n k h
    cases n with
    | zero =>
      have hk : k = 0 := by simpa [braceScan] using h.symm
      subst hk
      simp
    | succ n => exact absurd h (by simp [braceScan])
  | cons c rest ih =>
    intro n k h
    cases n with
    | zero =>
      have hk : k = 0 := by simpa [braceScan] using h.symm
      subst hk
      simp
    | succ n =>
      rw [braceScan] at h
      cases hbs : braceScan rest (if c = lbr then n+2 else if c = rbr then n else n+1) with
      | none => rw [hbs] at h; exact absurd h (by simp)
      | some k0 =>
        rw [hbs] at h
        simp only [Option.map, Option.some.injEq, Option.bind] at h
        subst h
        obtain ⟨ih1, ih2, ih3⟩ := ih _ _ hbs
        refine ⟨by simpa using ih1, ?_, ?_⟩
        · intro j hj
          cases j with
          | zero => simp
          | succ j =>
            have h2 := ih2 j (by omega)
            simp only [List.take_succ_cons]
            by_cases hc1 : c = lbr
            · subst hc1
              rw [if_pos rfl] at h2
              rw [List.count_cons_self, List.count_cons_of_ne (by decide : rbr ≠ lbr)]
              omega
            · by_cases hc2 : c = rbr
              · subst hc2
                rw [if_neg (by decide), if_pos rfl] at h2
                rw [List.count_cons_self, List.count_cons_of_ne (by decide : lbr ≠ rbr)]
                omega
              · rw [if_neg hc1, if_neg hc2] at h2
                rw [List.count_cons_of_ne (Ne.symm hc2),
                  List.count_cons_of_ne (Ne.symm hc1)]
                omega
        · simp only [List.take_succ_cons]
          by_cases hc1 : c = lbr
          · subst hc1
            rw [if_pos rfl] at ih3
            rw [List.count_cons_self, List.count_cons_of_ne (by decide : rbr ≠ lbr)]
            omega
          · by_cases hc2 : c = rbr
            · subst hc2
              rw [if_neg (by decide), if_pos rfl] at ih3
              rw [List.count_cons_self, List.count_cons_of_ne (by decide : lbr ≠ rbr)]
              omega
            · rw [if_neg hc1, if_neg hc2] at ih3
              rw [List.count_cons_of_ne (Ne.symm hc2),
                List.count_cons_of_ne (Ne.symm hc1)]
              omega

lemma braceScan_nil_pos {n : Nat} : braceScan ([] : Str) (n + 1) = none := rfl

lemma extract_ok_inv {s sec : Str} {st en : Nat}
    (h : _extract_genes_section s = .ok (sec, st, en)) :
    ∃ L k, searchGenes s = some (st, L) ∧
      braceScan (s.drop (st + L)) 1 = some k ∧
      en = st + L + k ∧ sec = (s.drop st).take (L + k) := by
  unfold _extract_genes_section at h
  split at h
  · exact absurd h (by simp)
  · rename_i startPos matchLen hsg
    split at h
    · exact absurd h (by simp)
    · rename_i k hbs
      simp only [Except.ok.injEq, Prod.mk.injEq] at h
      obtain ⟨hsec, hst, hen⟩ := h
      subst hst
      subst hen
      subst hsec
      exact ⟨matchLen, k, hsg, hbs, rfl, rfl⟩

lemma extract_notfound {s : Str} (h : searchGenes s = none) :
    _extract_genes_section s = .error msgNotFound := by
  unfold _extract_genes_section
  rw [h]

lemma extract_unbal {s : Str} {st L : Nat}
    (h1 : searchGenes s = some (st, L))
    (h2 : braceScan (s.drop (st + L)) 1 = none) :
    _extract_genes_section s = .error msgUnbalanced := by
  unfold _extract_genes_section
  rw [h1]
  simp only []
  rw [h2]

lemma extract_error_inv {s m : Str}
    (h : _extract_genes_section s = .error m) :
    (searchGenes s = none ∧ m = msgNotFound) ∨
      (∃ st L, searchGenes s = some (st, L) ∧
        braceScan (s.drop (st + L)) 1 = none ∧ m = msgUnbalanced) := by
  unfold _extract_genes_section at h
  split at h
  · rename_i hsg
    left
    exact ⟨hsg, by simpa using h.symm⟩
  · rename_i startPos matchLen hsg
    split at h
    · rename_i hbs
      right
      exact ⟨startPos, matchLen, hsg, hbs, by simpa using h.symm⟩
    · exact absurd h (by simp)

lemma duplicate_dna_err {s m : Str}
    (h : _extract_genes_section s = .error m) :
    duplicate_dna s = errPre ++ m := by
  unfold duplicate_dna
  rw [h]

lemma duplicate_dna_ok {s sec : Str} {st en : Nat}
    (h : _extract_genes_section s = .ok (sec, st, en)) :
    duplicate_dna s = s.take st ++
      ("genes=\x7b".data ++
        _duplicate_regular_genes (_duplicate_color_genes (innerOf sec)) ++ [rbr]) ++
      s.drop en := by
  unfold duplicate_dna
  rw [h]

lemma pyStrip_empty_iff {s : Str} :
    (pyStrip s).isEmpty = true ↔ ∀ c ∈ s, pyIsSpace c = true := by
  unfold pyStrip
  rw [List.isEmpty_iff, List.reverse_eq_nil_iff, List.dropWhile_eq_nil_iff]
  constructor
  · intro h c hc
    by_cases hcd : c ∈ s.dropWhile pyIsSpace
    · exact h c (by simpa using hcd)
    · have hsplit := List.takeWhile_append_dropWhile pyIsSpace s
      have : c ∈ s.takeWhile pyIsSpace ++ s.dropWhile pyIsSpace := by
        rw [hsplit]; exact hc
      rcases List.mem_append.mp this with h1 | h1
      · exact List.mem_takeWhile_imp h1
      · exact absurd h1 hcd
  · intro h c hc
    rw [List.mem_reverse] at hc
    exact h c ((List.dropWhile_suffix pyIsSpace).subset hc)

lemma validate_dna_ws {s : Str} (h : ∀ c ∈ s, pyIsSpace c = true) :
    validate_dna s = (false, msgEmpty) := by
  unfold validate_dna
  rw [if_pos (by rw [Bool.or_eq_true]; right; exact pyStrip_empty_iff.mpr h)]
  rfl

lemma validate_cond_false {s : Str} (h : ¬ ∀ c ∈ s, pyIsSpace c = true) :
    (s.isEmpty || (pyStrip s).isEmpty) = false := by
  rw [Bool.or_eq_false_iff]
  constructor
  · cases s with
    | nil => exact absurd (by simp) h
    | cons c rest => rfl
  · rw [← Bool.not_eq_true]
    intro hh
    exact h (pyStrip_empty_iff.mp hh)

lemma validate_dna_ok {s : Str} {x : Str × Nat × Nat}
    (hws : ¬ ∀ c ∈ s, pyIsSpace c = true)
    (h : _extract_genes_section s = .ok x) :
    validate_dna s = (true, []) := by
  unfold validate_dna
  rw [if_neg (by rw [validate_cond_false hws]; simp)]
  rw [h]

lemma validate_dna_err {s m : Str}
    (hws : ¬ ∀ c ∈ s, pyIsSpace c = true)
    (h : _extract_genes_section s = .error m) :
    validate_dna s = (false, m) := by
  unfold validate_dna
  rw [if_neg (by rw [validate_cond_false hws]; simp)]
  rw [h]

/-- Claim C1: `duplicate_dna` maps `genes=\x7b hair_color=\x7b 10 20 30 40 \x7d \x7d`
to exactly `genes=\x7b hair_color=\x7b 10 20 10 20 \x7d \x7d`, and maps
`genes=\x7b \x7b "head" 5 "nose" 9 \x7d \x7d` to exactly
`genes=\x7b \x7b "head" 5 "head" 5 \x7d \x7d`. -/
theorem claim1_spec_examples :
    duplicate_dna "genes=\x7b hair_color=\x7b 10 20 30 40 \x7d \x7d".data =
      "genes=\x7b hair_color=\x7b 10 20 10 20 \x7d \x7d".data ∧
    duplicate_dna "genes=\x7b \x7b \x22head\x22 5 \x22nose\x22 9 \x7d \x7d".data =
      "genes=\x7b \x7b \x22head\x22 5 \x22head\x22 5 \x7d \x7d".data :=
  ⟨by decide, by decide⟩

/-- Claim C2: whenever the locator succeeds with span `(st, en)`,
`duplicate_dna` returns `input[0:st] ++ mid ++ input[en:]` for the
rewritten block `mid`: the prefix before `st` and the suffix from `en`
are passed through character for character, and only the located span
is replaced. -/
theorem claim2_frame : ∀ (s sec : Str) (st en : Nat),
    _extract_genes_section s = .ok (sec, st, en) →
    ∃ mid : Str, duplicate_dna s = s.take st ++ mid ++ s.drop en ∧
      (duplicate_dna s).take st = s.take st ∧
      (duplicate_dna s).drop (st + mid.length) = s.drop en := by
  intro s sec st en h
  obtain ⟨L, k, hsg, hbs, hen, hsec⟩ := extract_ok_inv h
  have hst : st < s.length := searchGenes_lt_length hsg
  have hlen : (s.take st).length = st := by rw [List.length_take]; omega
  have hdup := duplicate_dna_ok h
  refine ⟨"genes=\x7b".data ++
      _duplicate_regular_genes (_duplicate_color_genes (innerOf sec)) ++ [rbr],
    hdup, ?_, ?_⟩
  · rw [hdup, List.append_assoc]
    exact List.take_left' hlen
  · rw [hdup]
    refine List.drop_left' ?_
    rw [List.length_append, hlen]

/-- Witness for C2 at a concrete document with text on both sides of the
block. -/
theorem claim2_frame_witness :
    ∃ mid : Str,
      duplicate_dna "ab genes=\x7b\x7d cd".data =
        "ab genes=\x7b\x7d cd".data.take 3 ++ mid ++ "ab genes=\x7b\x7d cd".data.drop 11 ∧
      (duplicate_dna "ab genes=\x7b\x7d cd".data).take 3 =
        "ab genes=\x7b\x7d cd".data.take 3 ∧
      (duplicate_dna "ab genes=\x7b\x7d cd".data).drop (3 + mid.length) =
        "ab genes=\x7b\x7d cd".data.drop 11 :=
  claim2_frame "ab genes=\x7b\x7d cd".data "genes=\x7b\x7d".data 3 11 (by rfl)

/-- Claim C3 counterexample: a document whose genes block is
brace-balanced (the locator succeeds and the block spans the whole
input), on which `duplicate_dna` is not idempotent: the quoted keys
contain brace characters, so the rewritten block no longer
brace-balances and the second application fails. -/
theorem claim3_cex :
    _extract_genes_section "genes=\x7b\x7b \x22a\x7b\x22 1 \x22b\x7d\x22 2 \x7d\x7d".data =
      .ok ("genes=\x7b\x7b \x22a\x7b\x22 1 \x22b\x7d\x22 2 \x7d\x7d".data, 0, 25) ∧
    duplicate_dna (duplicate_dna
        "genes=\x7b\x7b \x22a\x7b\x22 1 \x22b\x7d\x22 2 \x7d\x7d".data) ≠
      duplicate_dna "genes=\x7b\x7b \x22a\x7b\x22 1 \x22b\x7d\x22 2 \x7d\x7d".data :=
  ⟨by rfl, by decide⟩

/-- Claim C5 counterexample: the empty string contains no occurrence of
the genes pattern, yet `validate_dna` reports the empty-input message,
not the not-found message the claim asserts. -/
theorem claim5_cex :
    searchGenes ([] : Str) = none ∧
    validate_dna [] ≠ (false, msgNotFound) :=
  ⟨rfl, by decide⟩

/-- Claim C5 as amended: for every non-empty, non-whitespace-only input
with no occurrence of the genes pattern, `duplicate_dna` returns the
`Error: `-prefixed not-found message and `validate_dna` returns
`(false, msgNotFound)`. -/
theorem claim5_amended : ∀ s : Str,
    (¬ ∀ c ∈ s, pyIsSpace c = true) →
    (∀ p < s.length, matchGenesAt (s.drop p) = none) →
    duplicate_dna s = errPre ++ msgNotFound ∧
    validate_dna s = (false, msgNotFound) := by
  intro s hws hno
  have hext := extract_notfound (searchGenes_none_of_no_match hno)
  exact ⟨duplicate_dna_err hext, validate_dna_err hws hext⟩

/-- Witness for the amended C5 at the input `hello`. -/
theorem claim5_amended_witness :
    duplicate_dna "hello".data = errPre ++ msgNotFound ∧
    validate_dna "hello".data = (false, msgNotFound) :=
  claim5_amended "hello".data (by decide) (by decide)

/-- Claim C6 counterexample: the input `genes=\x7b\x7d genes=\x7b` contains a
match of the genes pattern (at offset 9) whose opening brace is never
balanced, yet the locator uses the first match (which balances), so
`duplicate_dna` succeeds (returning the input unchanged) and
`validate_dna` accepts. -/
theorem claim6_cex :
    matchGenesAt (("genes=\x7b\x7d genes=\x7b".data).drop 9) = some 7 ∧
    braceScan (("genes=\x7b\x7d genes=\x7b".data).drop 16) 1 = none ∧
    duplicate_dna "genes=\x7b\x7d genes=\x7b".data =
      "genes=\x7b\x7d genes=\x7b".data ∧
    validate_dna "genes=\x7b\x7d genes=\x7b".data = (true, []) :=
  ⟨by decide, by decide, by decide, by decide⟩

/-- Claim C6 as amended: when the FIRST match of the genes pattern has
an opening brace that is never balanced before end-of-input, the
locator fails with the unbalanced-brace error, `duplicate_dna` returns
it with the `Error: ` prefix, and `validate_dna` returns `false` with
the same message. -/
theorem claim6_amended : ∀ (s : Str) (st L : Nat),
    searchGenes s = some (st, L) →
    braceScan (s.drop (st + L)) 1 = none →
    _extract_genes_section s = .error msgUnbalanced ∧
    duplicate_dna s = errPre ++ msgUnbalanced ∧
    validate_dna s = (false, msgUnbalanced) := by
  intro s st L h1 h2
  have hext := extract_unbal h1 h2
  exact ⟨hext, duplicate_dna_err hext,
    validate_dna_err (searchGenes_not_all_space h1) hext⟩

/-- Witness for the amended C6 at the input `genes=\x7b`. -/
theorem claim6_amended_witness :
    _extract_genes_section "genes=\x7b".data = .error msgUnbalanced ∧
    duplicate_dna "genes=\x7b".data = errPre ++ msgUnbalanced ∧
    validate_dna "genes=\x7b".data = (false, msgUnbalanced) :=
  claim6_amended "genes=\x7b".data 0 7 (by decide) (by decide)

/-- Claim C7: `validate_dna` always returns a boolean and a string; it
returns `(false, msgEmpty)` exactly when the input is empty or
whitespace-only; otherwise it returns `(true, "")` when the locator
succeeds and `(false, m)` with the locator's message `m` verbatim when
the locator fails.  It never inspects individual gene entries. -/
theorem claim7_validator : ∀ s : Str,
    (validate_dna s = (false, msgEmpty) ↔ ∀ c ∈ s, pyIsSpace c = true) ∧
    ((¬ ∀ c ∈ s, pyIsSpace c = true) →
      ((∃ x, _extract_genes_section s = .ok x) →
        validate_dna s = (true, [])) ∧
      (∀ m, _extract_genes_section s = .error m →
        validate_dna s = (false, m))) := by
  intro s
  constructor
  · constructor
    · intro hv
      by_contra hws
      cases hext : _extract_genes_section s with
      | ok x =>
        rw [validate_dna_ok hws hext] at hv
        exact absurd hv (by simp)
      | error m =>
        rw [validate_dna_err hws hext] at hv
        have hm : m = msgEmpty := (Prod.mk.injEq .. ▸ hv).2
        rcases extract_error_inv hext with ⟨_, hm'⟩ | ⟨_, _, _, _, hm'⟩
        · rw [hm'] at hm
          exact absurd hm (by decide)
        · rw [hm'] at hm
          exact absurd hm (by decide)
    · exact validate_dna_ws
  · intro hws
    constructor
    · intro ⟨x, hext⟩
      exact validate_dna_ok hws hext
    · intro m hext
      exact validate_dna_err hws hext

/-- Witness for C7: components at concrete inputs; the whitespace-only
equivalence at a blank input and the two delegation branches at a
well-formed and a malformed input. -/
theorem claim7_validator_witness :
    validate_dna " ".data = (false, msgEmpty) ∧
    validate_dna "genes=\x7b\x7d".data = (true, []) ∧
    validate_dna "nope".data = (false, msgNotFound) :=
  ⟨(claim7_validator " ".data).1.mpr (by decide),
   ((claim7_validator "genes=\x7b\x7d".data).2 (by decide)).1
     ⟨("genes=\x7b\x7d".data, 0, 8), by rfl⟩,
   ((claim7_validator "nope".data).2 (by decide)).2 msgNotFound (by rfl)⟩

/-- Claim C8: the normal-gene pass leaves every string without a double
quote unchanged (so it never re-processes the quote-free replacements
produced by the color pass), and every color-pass replacement is indeed
quote-free. -/
theorem claim8_disjoint :
    (∀ s : Str, dq ∉ s → _duplicate_regular_genes s = s) ∧
    (∀ s r t : Str, mColorAt s = some (r, t) → dq ∉ r) := by
  constructor
  · intro s h
    exact reg_id_of_no_dq h s.length
  · intro s r t h
    obtain ⟨key, a1, a2, hkey, ha1, ha2, hr⟩ := mColorAt_some_inv h
    rw [hr]
    exact colorRepl_no_dq hkey ha1 ha2

/-- Witness for C8: a color-pass replacement text is left unchanged by
the normal-gene pass, and the color matcher on a concrete entry yields
a quote-free replacement. -/
theorem claim8_disjoint_witness :
    _duplicate_regular_genes "hair_color=\x7b 1 2 1 2 \x7d".data =
      "hair_color=\x7b 1 2 1 2 \x7d".data ∧
    dq ∉ colorRepl "hair_color".data "1".data "2".data :=
  ⟨claim8_disjoint.1 "hair_color=\x7b 1 2 1 2 \x7d".data (by decide),
   claim8_disjoint.2 "hair_color=\x7b 1 2 3 4 \x7d".data
     (colorRepl "hair_color".data "1".data "2".data) [] (by rfl)⟩

/-- Claim C10: `duplicate_dna` is total, returning either the spliced
rewritten document (when the locator succeeds) or `Error: ` followed by
the locator's message; consequently on any non-whitespace-only input
where `validate_dna` returns `(false, m)`, `duplicate_dna` returns
exactly `Error: ` ++ m. -/
theorem claim10_total : ∀ s : Str,
    ((∃ sec st en, _extract_genes_section s = .ok (sec, st, en) ∧
        duplicate_dna s = s.take st ++
          ("genes=\x7b".data ++
            _duplicate_regular_genes (_duplicate_color_genes (innerOf sec)) ++
            [rbr]) ++ s.drop en) ∨
      (∃ m, _extract_genes_section s = .error m ∧
        duplicate_dna s = errPre ++ m)) ∧
    ((¬ ∀ c ∈ s, pyIsSpace c = true) → ∀ m,
      validate_dna s = (false, m) → duplicate_dna s = errPre ++ m) := by
  intro s
  constructor
  · cases hext : _extract_genes_section s with
    | ok x =>
      obtain ⟨sec, st, en⟩ := x
      exact Or.inl ⟨sec, st, en, rfl, duplicate_dna_ok hext⟩
    | error m => exact Or.inr ⟨m, rfl, duplicate_dna_err hext⟩
  · intro hws m hv
    cases hext : _extract_genes_section s with
    | ok x =>
      rw [validate_dna_ok hws hext] at hv
      exact absurd hv (by simp)
    | error m0 =>
      rw [validate_dna_err hws hext] at hv
      have hm : m0 = m := (Prod.mk.injEq .. ▸ hv).2
      rw [← hm]
      exact duplicate_dna_err hext

/-- Witness for C10 at the input `x`, where validation fails with the
not-found message. -/
theorem claim10_total_witness :
    duplicate_dna "x".data = errPre ++ msgNotFound :=
  (claim10_total "x".data).2 (by decide) msgNotFound (by rfl)

/-- Claim C4: when the locator succeeds with `(st, en)`, the match of
the genes pattern starts at `st` (the first position where it matches),
and `en = st + L + k` where `k` is the FIRST position after the matched
opening brace at which the running close-brace count reaches one more
than the open-brace count — i.e. `en` is just past the outer balancing
close brace, never an inner one.  The nested-brace example from the
spec locates `end` at the final close brace (offset 42 = the input
length). -/
theorem claim4_locator_end :
    (∀ (s sec : Str) (st en : Nat),
      _extract_genes_section s = .ok (sec, st, en) →
      ∃ L k, matchGenesAt (s.drop st) = some L ∧
        (∀ p < st, matchGenesAt (s.drop p) = none) ∧
        en = st + L + k ∧ st + L < s.length ∧ en ≤ s.length ∧
        (∀ j < k, ((s.drop (st + L)).take j).count rbr <
          1 + ((s.drop (st + L)).take j).count lbr) ∧
        ((s.drop (st + L)).take k).count rbr =
          1 + ((s.drop (st + L)).take k).count lbr) ∧
    _extract_genes_section
        "genes=\x7b a=\x7b x=1 \x7d hair_color=\x7b 1 2 3 4 \x7d \x7d".data =
      .ok ("genes=\x7b a=\x7b x=1 \x7d hair_color=\x7b 1 2 3 4 \x7d \x7d".data,
        0, 42) := by
  constructor
  · intro s sec st en h
    obtain ⟨L, k, hsg, hbs, hen, hsec⟩ := extract_ok_inv h
    obtain ⟨hm, hnone⟩ := searchGenes_some_spec hsg
    obtain ⟨hk, hlt, heq⟩ := braceScan_spec _ _ _ hbs
    have hne : s.drop (st + L) ≠ [] := by
      intro hnil
      rw [hnil] at hbs
      exact absurd hbs (by simp [braceScan])
    have hlen1 : st + L < s.length := by
      by_contra hle
      exact hne (List.drop_eq_nil_of_le (by omega))
    have hdl : (s.drop (st + L)).length = s.length - (st + L) :=
      List.length_drop (st + L) s
    exact ⟨L, k, hm, hnone, hen, hlen1, by omega, hlt, heq⟩
  · rfl

/-- Witness for C4 at the nested-brace example. -/
theorem claim4_locator_end_witness :
    ∃ L k,
      matchGenesAt
        (("genes=\x7b a=\x7b x=1 \x7d hair_color=\x7b 1 2 3 4 \x7d \x7d".data).drop 0) =
        some L ∧
      (∀ p < 0,
        matchGenesAt
          (("genes=\x7b a=\x7b x=1 \x7d hair_color=\x7b 1 2 3 4 \x7d \x7d".data).drop p) =
          none) ∧
      42 = 0 + L + k ∧
      0 + L < "genes=\x7b a=\x7b x=1 \x7d hair_color=\x7b 1 2 3 4 \x7d \x7d".data.length ∧
      42 ≤ "genes=\x7b a=\x7b x=1 \x7d hair_color=\x7b 1 2 3 4 \x7d \x7d".data.length ∧
      (∀ j < k,
        ((("genes=\x7b a=\x7b x=1 \x7d hair_color=\x7b 1 2 3 4 \x7d \x7d".data).drop (0 + L)).take j).count rbr <
          1 + ((("genes=\x7b a=\x7b x=1 \x7d hair_color=\x7b 1 2 3 4 \x7d \x7d".data).drop (0 + L)).take j).count lbr) ∧
      ((("genes=\x7b a=\x7b x=1 \x7d hair_color=\x7b 1 2 3 4 \x7d \x7d".data).drop (0 + L)).take k).count rbr =
        1 + ((("genes=\x7b a=\x7b x=1 \x7d hair_color=\x7b 1 2 3 4 \x7d \x7d".data).drop (0 + L)).take k).count lbr :=
  claim4_locator_end.1
    "genes=\x7b a=\x7b x=1 \x7d hair_color=\x7b 1 2 3 4 \x7d \x7d".data
    "genes=\x7b a=\x7b x=1 \x7d hair_color=\x7b 1 2 3 4 \x7d \x7d".data
    0 42 (by rfl)

lemma subF_single_full_match {m : Str → Option (Str × Str)} {c : Char}
    {rest repl : Str} (h : m (c :: rest) = some (repl, [])) (n : Nat) :
    subF m (n + 1) (c :: rest) = repl := by
  simp only [subF, h, subF_nil, List.append_nil]

lemma sub_single_full_match {m : Str → Option (Str × Str)} {s repl : Str}
    (h : m s = some (repl, [])) (hs : s ≠ []) :
    subF m s.length s = repl := by
  cases s with
  | nil => exact absurd rfl hs
  | cons c rest =>
    rw [List.length_cons]
    exact subF_single_full_match h rest.length

lemma colorKeys_ne_nil {key : Str} (h : key ∈ colorKeys) : key ≠ [] := by
  fin_cases h <;> decide

/-- Claim C9 counterexample: an entry with whitespace between the key
name and the `=` (and between `=` and the brace) is NOT matched by the
color pattern and is left completely unchanged by `duplicate_dna` — the
third and fourth integers stay `30 40`. -/
theorem claim9_cex :
    mColorAt "hair_color = \x7b 10 20 30 40 \x7d".data = none ∧
    duplicate_dna "genes=\x7b hair_color = \x7b 10 20 30 40 \x7d \x7d".data =
      "genes=\x7b hair_color = \x7b 10 20 30 40 \x7d \x7d".data :=
  ⟨by decide, by decide⟩

/-- Claim C9 as amended: the color rewrite tolerates arbitrary
whitespace between the opening brace, the four integers, and the
closing brace, but requires the key name to be immediately followed by
`=` and the opening brace with no whitespace; such an entry is
rewritten so the third and fourth integers equal the first and
second. -/
theorem claim9_amended : ∀ key w1 a1 w2 a2 w3 b1 w4 b2 w5 : Str,
    key ∈ colorKeys →
    (∀ c ∈ w1, pyIsSpace c = true) →
    a1 ≠ [] → (∀ c ∈ a1, pyIsDigit c = true) →
    w2 ≠ [] → (∀ c ∈ w2, pyIsSpace c = true) →
    a2 ≠ [] → (∀ c ∈ a2, pyIsDigit c = true) →
    w3 ≠ [] → (∀ c ∈ w3, pyIsSpace c = true) →
    b1 ≠ [] → (∀ c ∈ b1, pyIsDigit c = true) →
    w4 ≠ [] → (∀ c ∈ w4, pyIsSpace c = true) →
    b2 ≠ [] → (∀ c ∈ b2, pyIsDigit c = true) →
    (∀ c ∈ w5, pyIsSpace c = true) →
    _duplicate_color_genes (key ++ ('='::lbr::(w1 ++ (a1 ++ (w2 ++ (a2 ++
        (w3 ++ (b1 ++ (w4 ++ (b2 ++ (w5 ++ [rbr]))))))))))) =
      key ++ '='::lbr:: ' '::(a1 ++ ' '::(a2 ++ ' '::(a1 ++ ' '::(a2 ++ [' ', rbr])))) := by
  intro key w1 a1 w2 a2 w3 b1 w4 b2 w5 hkey hw1 ha1 ha1d hw2 hw2s ha2 ha2d
    hw3 hw3s hb1 hb1d hw4 hw4s hb2 hb2d hw5
  have hrun := @mColorAt_run key w1 a1 w2 a2 w3 b1 w4 b2 w5 [] hkey hw1 ha1
    ha1d hw2 hw2s ha2 ha2d hw3 hw3s hb1 hb1d hw4 hw4s hb2 hb2d hw5
  have hne : key ++ ('='::lbr::(w1 ++ (a1 ++ (w2 ++ (a2 ++ (w3 ++ (b1 ++
      (w4 ++ (b2 ++ (w5 ++ [rbr])))))))))) ≠ [] := by
    cases hx : key with
    | nil => exact absurd hx (colorKeys_ne_nil hkey)
    | cons c rest => simp
  exact sub_single_full_match hrun hne

/-- Witness for the amended C9: two spaces inside the braces and
two-digit integers, key `skin_color`. -/
theorem claim9_amended_witness :
    _duplicate_color_genes
        ("skin_color".data ++ ('='::lbr::([' ', ' '] ++ ("10".data ++ ([' '] ++
          ("20".data ++ ([' ', ' '] ++ ("30".data ++ ([' '] ++
            ("40".data ++ ([] ++ [rbr]))))))))))) =
      "skin_color".data ++
        '='::lbr:: ' '::("10".data ++ ' '::("20".data ++ ' '::("10".data ++
          ' '::("20".data ++ [' ', rbr])))) :=
  claim9_amended "skin_color".data [' ', ' '] "10".data [' '] "20".data
    [' ', ' '] "30".data [' '] "40".data [] (by decide) (by decide)
    (by decide) (by decide) (by decide) (by decide) (by decide) (by decide)
    (by decide) (by decide) (by decide) (by decide) (by decide) (by decide)
    (by decide) (by decide) (by decide)

lemma braceScan_cons_other {c : Char} {t : Str} {n : Nat}
    (h1 : c ≠ lbr) (h2 : c ≠ rbr) :
    braceScan (c::t) (n+1) = (braceScan t (n+1)).map (· + 1) := by
  rw [braceScan, if_neg h1, if_neg h2]

lemma braceScan_cons_open {t : Str} {n : Nat} :
    braceScan (lbr::t) (n+1) = (braceScan t (n+2)).map (· + 1) := by
  rw [braceScan, if_pos rfl]

lemma braceScan_bracefree_append {u t : Str} {n : Nat}
    (h : ∀ c ∈ u, c ≠ lbr ∧ c ≠ rbr) :
    braceScan (u ++ t) (n+1) = (braceScan t (n+1)).map (· + u.length) := by
  induction u with
  | nil =>
    cases hbs : braceScan t (n+1) with
    | none => simp [hbs]
    | some k => simp [hbs]
  | cons c u ih =>
    have hc := h c (by simp)
    rw [List.cons_append, braceScan_cons_other hc.1 hc.2,
      ih fun d hd => h d (by simp [hd])]
    cases hbs : braceScan t (n+1) with
    | none => simp [hbs]
    | some k =>
      simp [hbs, List.length_cons]
      omega

lemma digit_not_brace {c : Char} (h : pyIsDigit c = true) :
    c ≠ lbr ∧ c ≠ rbr := by
  constructor <;> rintro rfl <;> revert h <;> decide

lemma braceScan_innerDoc {K V J W : Str}
    (hK : ∀ c ∈ K, c ≠ lbr ∧ c ≠ rbr)
    (hJ : ∀ c ∈ J, c ≠ lbr ∧ c ≠ rbr)
    (hV : ∀ c ∈ V, pyIsDigit c = true)
    (hW : ∀ c ∈ W, pyIsDigit c = true) :
    braceScan (innerDoc K V J W ++ [rbr]) 1 =
      some ((innerDoc K V J W).length + 1) := by
  have hVb : ∀ c ∈ V, c ≠ lbr ∧ c ≠ rbr := fun c hc => digit_not_brace (hV c hc)
  have hWb : ∀ c ∈ W, c ≠ lbr ∧ c ≠ rbr := fun c hc => digit_not_brace (hW c hc)
  have e0 : innerDoc K V J W ++ [rbr] =
      ' '::lbr:: ' '::dq::(K ++ (dq:: ' '::(V ++ (' '::dq::(J ++ (dq:: ' '::
        (W ++ [' ', rbr, ' ', rbr])))))))  := by
    simp [innerDoc]
  have a0 : braceScan ([' ', rbr, ' ', rbr] : Str) 2 = some 4 := rfl
  have a1 : braceScan (W ++ [' ', rbr, ' ', rbr]) 2 = some (4 + W.length) := by
    rw [braceScan_bracefree_append hWb, a0]
    rfl
  have a2 : braceScan (dq:: ' '::(W ++ [' ', rbr, ' ', rbr])) 2 =
      some (4 + W.length + 2) := by
    rw [braceScan_cons_other (by decide) (by decide),
      braceScan_cons_other (by decide) (by decide), a1]
    rfl
  have a3 : braceScan (J ++ (dq:: ' '::(W ++ [' ', rbr, ' ', rbr]))) 2 =
      some (4 + W.length + 2 + J.length) := by
    rw [braceScan_bracefree_append hJ, a2]
    rfl
  have a4 : braceScan (' '::dq::(J ++ (dq:: ' '::(W ++ [' ', rbr, ' ', rbr])))) 2 =
      some (4 + W.length + 2 + J.length + 2) := by
    rw [braceScan_cons_other (by decide) (by decide),
      braceScan_cons_other (by decide) (by decide), a3]
    rfl
  have a5 : braceScan (V ++ (' '::dq::(J ++ (dq:: ' '::
      (W ++ [' ', rbr, ' ', rbr]))))) 2 =
      some (4 + W.length + 2 + J.length + 2 + V.length) := by
    rw [braceScan_bracefree_append hVb, a4]
    rfl
  have a6 : braceScan (dq:: ' '::(V ++ (' '::dq::(J ++ (dq:: ' '::
      (W ++ [' ', rbr, ' ', rbr])))))) 2 =
      some (4 + W.length + 2 + J.length + 2 + V.length + 2) := by
    rw [braceScan_cons_other (by decide) (by decide),
      braceScan_cons_other (by decide) (by decide), a5]
    rfl
  have a7 : braceScan (K ++ (dq:: ' '::(V ++ (' '::dq::(J ++ (dq:: ' '::
      (W ++ [' ', rbr, ' ', rbr]))))))) 2 =
      some (4 + W.length + 2 + J.length + 2 + V.length + 2 + K.length) := by
    rw [braceScan_bracefree_append hK, a6]
    rfl
  have a8 : braceScan (' '::dq::(K ++ (dq:: ' '::(V ++ (' '::dq::(J ++ (dq:: ' '::
      (W ++ [' ', rbr, ' ', rbr])))))))) 2 =
      some (4 + W.length + 2 + J.length + 2 + V.length + 2 + K.length + 2) := by
    rw [braceScan_cons_other (by decide) (by decide),
      braceScan_cons_other (by decide) (by decide), a7]
    rfl
  have a9 : braceScan (lbr:: ' '::dq::(K ++ (dq:: ' '::(V ++ (' '::dq::(J ++
      (dq:: ' '::(W ++ [' ', rbr, ' ', rbr]))))))))  1 =
      some (4 + W.length + 2 + J.length + 2 + V.length + 2 + K.length + 2 + 1) := by
    rw [braceScan_cons_open, a8]
    rfl
  have a10 : braceScan (' '::lbr:: ' '::dq::(K ++ (dq:: ' '::(V ++ (' '::dq::(J ++
      (dq:: ' '::(W ++ [' ', rbr, ' ', rbr]))))))))  1 =
      some (4 + W.length + 2 + J.length + 2 + V.length + 2 + K.length + 2 + 1 + 1) := by
    rw [braceScan_cons_other (by decide) (by decide), a9]
    rfl
  rw [e0, a10]
  have hlen : (innerDoc K V J W).length =
      K.length + V.length + J.length + W.length + 13 := by
    simp [innerDoc]
    omega
  rw [hlen]
  exact congrArg some (by omega)

lemma docOf_length {K V J W : Str} :
    (docOf K V J W).length = 7 + ((innerDoc K V J W).length + 1) := by
  simp [docOf]
  omega

lemma extract_docOf {K V J W : Str}
    (hK : ∀ c ∈ K, c ≠ lbr ∧ c ≠ rbr)
    (hJ : ∀ c ∈ J, c ≠ lbr ∧ c ≠ rbr)
    (hV : ∀ c ∈ V, pyIsDigit c = true)
    (hW : ∀ c ∈ W, pyIsDigit c = true) :
    _extract_genes_section (docOf K V J W) =
      .ok (docOf K V J W, 0, (docOf K V J W).length) := by
  have hsg : searchGenes (docOf K V J W) = some (0, 7) := rfl
  have hd7 : (docOf K V J W).drop (0 + 7) = innerDoc K V J W ++ [rbr] := rfl
  have hbs := braceScan_innerDoc hK hJ hV hW
  unfold _extract_genes_section
  rw [hsg]
  simp only []
  rw [hd7, hbs]
  simp only [List.drop_zero]
  rw [show 7 + ((innerDoc K V J W).length + 1) = (docOf K V J W).length from
    docOf_length.symm]
  rw [List.take_length]

lemma innerOf_docOf {K V J W : Str} :
    innerOf (docOf K V J W) = innerDoc K V J W := by
  have hfind : pyFind lbr (docOf K V J W) = some 6 := rfl
  have hrev : (docOf K V J W).reverse =
      rbr :: ((innerDoc K V J W).reverse ++ ("genes=\x7b".data).reverse) := by
    simp [docOf]
  have hrfind : pyRfind rbr (docOf K V J W) =
      some ((docOf K V J W).length - 1) := by
    unfold pyRfind
    rw [hrev]
    rw [pyFind, if_pos rfl]
    rfl
  unfold innerOf
  rw [hfind, hrfind]
  simp only []
  have h1 : docOf K V J W = ("genes=\x7b".data ++ innerDoc K V J W) ++ [rbr] := by
    simp [docOf]
  have h2 : (docOf K V J W).length - 1 =
      ("genes=\x7b".data ++ innerDoc K V J W).length := by
    rw [docOf_length]
    simp
    omega
  rw [h2]
  rw [h1]
  rw [List.take_left]
  rw [List.drop_left' (by rfl : ("genes=\x7b".data).length = 6 + 1)]

lemma subF_step_none {m : Str → Option (Str × Str)} {c : Char} {rest : Str}
    {n : Nat} (h : m (c::rest) = none) :
    subF m (n+1) (c::rest) = c :: subF m n rest := by
  simp only [subF, h]

lemma subF_step_some {m : Str → Option (Str × Str)} {c : Char}
    {rest repl after : Str} {n : Nat} (h : m (c::rest) = some (repl, after)) :
    subF m (n+1) (c::rest) = repl ++ subF m n after := by
  simp only [subF, h]

lemma mColorAt_innerDoc_none {K V J W : Str}
    (hK : ∀ c ∈ K, c ≠ lbr ∧ c ≠ rbr)
    (hJ : ∀ c ∈ J, c ≠ lbr ∧ c ≠ rbr)
    (hV : ∀ c ∈ V, pyIsDigit c = true)
    (hW : ∀ c ∈ W, pyIsDigit c = true) :
    ∀ p, mColorAt ((innerDoc K V J W).drop p) = none := by
  intro p
  match p with
  | 0 => rfl
  | 1 => rfl
  | p + 2 =>
    cases hm : mColorAt ((innerDoc K V J W).drop (p + 2)) with
    | none => rfl
    | some x =>
      exfalso
      have hlbr := mColorAt_some_mem_lbr hm
      have hdd : (innerDoc K V J W).drop (p + 2) =
          ((innerDoc K V J W).drop 2).drop p := by
        rw [List.drop_drop]
        rw [Nat.add_comm]
      rw [hdd] at hlbr
      have hlbr2 : lbr ∈ (innerDoc K V J W).drop 2 :=
        List.drop_subset p ((innerDoc K V J W).drop 2) hlbr
      have h2 : (innerDoc K V J W).drop 2 =
          ' '::dq::(K ++ (dq:: ' '::(V ++ (' '::dq::(J ++ (dq:: ' '::
            (W ++ [' ', rbr, ' ']))))))) := rfl
      rw [h2] at hlbr2
      simp only [List.mem_cons, List.mem_append, List.mem_singleton] at hlbr2
      rcases hlbr2 with h | h | h | h | h | h | h | h | h | h | h | h
      · exact absurd h (by decide)
      · exact absurd h (by decide)
      · exact (hK lbr h).1 rfl
      · exact absurd h (by decide)
      · exact absurd h (by decide)
      · exact absurd (hV lbr h) (by decide)
      · exact absurd h (by decide)
      · exact absurd h (by decide)
      · exact (hJ lbr h).1 rfl
      · exact absurd h (by decide)
      · exact absurd h (by decide)
      · rcases h with h | h | h | h
        · exact absurd (hW lbr h) (by decide)
        · exact absurd h (by decide)
        · exact absurd h (by decide)
        · exact absurd h (by decide)

lemma color_id_innerDoc {K V J W : Str}
    (hK : ∀ c ∈ K, c ≠ lbr ∧ c ≠ rbr)
    (hJ : ∀ c ∈ J, c ≠ lbr ∧ c ≠ rbr)
    (hV : ∀ c ∈ V, pyIsDigit c = true)
    (hW : ∀ c ∈ W, pyIsDigit c = true) :
    _duplicate_color_genes (innerDoc K V J W) = innerDoc K V J W :=
  subF_eq_self (mColorAt_innerDoc_none hK hJ hV hW) _

lemma reg_innerDoc {K V J W : Str}
    (hKne : K ≠ []) (hKq : dq ∉ K)
    (hVne : V ≠ []) (hVd : ∀ c ∈ V, pyIsDigit c = true)
    (hJne : J ≠ []) (hJq : dq ∉ J)
    (hWne : W ≠ []) (hWd : ∀ c ∈ W, pyIsDigit c = true) :
    _duplicate_regular_genes (innerDoc K V J W) =
      ' '::(regRepl K V ++ [' ']) := by
  have e0 : innerDoc K V J W = ' '::(lbr:: ' '::dq::(K ++ (dq:: ' '::(V ++
      (' '::dq::(J ++ (dq:: ' '::(W ++ [' ', rbr, ' '])))))))) := rfl
  have h1 : mRegAt (' '::(lbr:: ' '::dq::(K ++ (dq:: ' '::(V ++ (' '::dq::(J ++
      (dq:: ' '::(W ++ [' ', rbr, ' '])))))))))  = none := rfl
  have h2 : mRegAt (lbr:: ' '::dq::(K ++ (dq:: ' '::(V ++ (' '::dq::(J ++
      (dq:: ' '::(W ++ [' ', rbr, ' ']))))))))  = some (regRepl K V, [' ']) :=
    @mRegAt_run K V J W [' '] hKne hKq hVne hVd hJne hJq hWne hWd
  have h3 : ∀ y, subF mRegAt y ([' '] : Str) = [' '] := fun y =>
    subF_eq_self (fun p => by
      cases p with
      | zero => rfl
      | succ q => rw [show ([' '] : Str).drop (q+1) = [] from by simp]; rfl) y
  unfold _duplicate_regular_genes
  rw [e0]
  rw [List.length_cons]
  rw [subF_step_none h1]
  rw [List.length_cons]
  rw [subF_step_some h2]
  rw [h3]

lemma dup_docOf {K V J W : Str}
    (hKne : K ≠ []) (hKq : dq ∉ K) (hKb : ∀ c ∈ K, c ≠ lbr ∧ c ≠ rbr)
    (hJne : J ≠ []) (hJq : dq ∉ J) (hJb : ∀ c ∈ J, c ≠ lbr ∧ c ≠ rbr)
    (hVne : V ≠ []) (hVd : ∀ c ∈ V, pyIsDigit c = true)
    (hWne : W ≠ []) (hWd : ∀ c ∈ W, pyIsDigit c = true) :
    duplicate_dna (docOf K V J W) = docOf K V K V := by
  rw [duplicate_dna_ok (extract_docOf hKb hJb hVd hWd)]
  rw [innerOf_docOf]
  rw [color_id_innerDoc hKb hJb hVd hWd]
  rw [reg_innerDoc hKne hKq hVne hVd hJne hJq hWne hWd]
  rw [List.take_zero, List.drop_length]
  simp [docOf, innerDoc, regRepl]

/-- Claim C3 as amended: on single-entry normal-gene documents
`genes=\x7b \x7b "K" V "J" W \x7d \x7d` whose quoted keys are non-empty and
free of quotes and braces and whose values are non-empty digit strings,
one application of `duplicate_dna` yields
`genes=\x7b \x7b "K" V "K" V \x7d \x7d` (the first pair wins), and a second
application is a no-op, so `duplicate_dna ∘ duplicate_dna =
duplicate_dna` on this family.  (Unrestricted idempotence on every
brace-balanced document is false: see the counterexample, where a brace
inside a quoted key unbalances the rewritten block.) -/
theorem claim3_amended : ∀ K V J W : Str,
    K ≠ [] → dq ∉ K → (∀ c ∈ K, c ≠ lbr ∧ c ≠ rbr) →
    J ≠ [] → dq ∉ J → (∀ c ∈ J, c ≠ lbr ∧ c ≠ rbr) →
    V ≠ [] → (∀ c ∈ V, pyIsDigit c = true) →
    W ≠ [] → (∀ c ∈ W, pyIsDigit c = true) →
    duplicate_dna (docOf K V J W) = docOf K V K V ∧
    duplicate_dna (duplicate_dna (docOf K V J W)) =
      duplicate_dna (docOf K V J W) := by
  intro K V J W hKne hKq hKb hJne hJq hJb hVne hVd hWne hWd
  have h1 := dup_docOf hKne hKq hKb hJne hJq hJb hVne hVd hWne hWd
  have h2 := dup_docOf hKne hKq hKb hKne hKq hKb hVne hVd hVne hVd
  exact ⟨h1, by rw [h1, h2, ← h1]⟩

/-- Witness for the amended C3 at the spec's own example entry
`\x7b "head" 5 "nose" 9 \x7d`. -/
theorem claim3_amended_witness :
    duplicate_dna (docOf "head".data "5".data "nose".data "9".data) =
      docOf "head".data "5".data "head".data "5".data ∧
    duplicate_dna (duplicate_dna
        (docOf "head".data "5".data "nose".data "9".data)) =
      duplicate_dna (docOf "head".data "5".data "nose".data "9".data) :=
  claim3_amended "head".data "5".data "nose".data "9".data
    (by decide) (by decide) (by decide) (by decide) (by decide) (by decide)
    (by decide) (by decide) (by decide) (by decide)
